import Mathlib

/-!
Shallow embedding of the Kubefirst-bot command pipeline (`src/index.js`).

The probot context is split into:
* `Payload` — the inbound event payload fields the handler reads
  (`payload.comment`, `payload.issue.number`, `payload.repository.owner.login`);
* `Platform` — the outcome of each octokit endpoint during one invocation
  (`Except.ok` with the fetched data, or `Except.error e` where `e` is the
  platform error message).

Every function returns the ordered list of platform calls it performed
(`List Action`) together with `Except.ok ()` for a normal return or
`Except.error e` for an exception that escaped the function, mirroring the
JavaScript control flow (a rejected `await` outside `try` propagates).
-/

namespace KubefirstBot

structure Comment where
  userLogin : String
  body : String
deriving DecidableEq

structure Review where
  userLogin : String
  state : String
deriving DecidableEq

structure Label where
  name : String
deriving DecidableEq

structure PullRequest where
  draft : Bool
  labels : List Label
deriving DecidableEq

structure Collaborator where
  login : String
deriving DecidableEq

structure Payload where
  comment : Option Comment
  issueNumber : Option Nat
  repoOwner : String
deriving DecidableEq

/-- One platform call (mutation or log line) performed by the handler. -/
inductive Action where
  | createComment (body : String)
  | createReview (prNumber : Nat) (event : String) (body : String)
  | merge (prNumber : Nat)
  | addLabels (prNumber : Nat) (labels : List String)
  | removeLabel (prNumber : Nat) (name : String)
  | logInfo (msg : String)
  | logError (msg : String)
deriving DecidableEq

/-- Outcome of each octokit endpoint during one invocation. -/
structure Platform where
  pullRequest : Except String PullRequest
  reviews : Except String (List Review)
  comments : Except String (List Comment)
  collaborators : Except String (List Collaborator)
  createCommentResult : Except String Unit
  createReviewResult : Except String Unit
  mergeResult : Except String Unit
  addLabelsResult : Except String Unit
  removeLabelResult : Except String Unit

/-- `const MIN_REQUIRED_APPROVALS = 1;` (src/index.js line 1). -/
def MIN_REQUIRED_APPROVALS : Nat := 1

/-- `const botUsername = "kubefirst-bot[bot]";`. -/
def botUsername : String := "kubefirst-bot[bot]"

/-- The TypeError thrown by `context.payload.comment.user.login` when the
payload has no comment object (src/index.js line 33). -/
def commentUserTypeError : String :=
  "TypeError: Cannot read properties of undefined (reading \x27user\x27)"

def ignoreBotLog : String :=
  "Ignoring comment from the bot itself to prevent infinite loop."

def permissionDeniedMsg (commenter : String) : String :=
  "❌ @" ++ commenter ++
    ", you do not have permission to use this command. Only maintainers and the bot can use this command."

def duplicateCommandMsg (commenter : String) : String :=
  "@" ++ commenter ++ ", you have already used this command in the thread."

def duplicateCheckFailLog (e : String) : String :=
  "Failed to check for duplicate command usage: " ++ e

def maintainerCheckFailLog (e : String) : String :=
  "Failed to check maintainer status: " ++ e

def holdMsg : String :=
  "This PR is on hold and cannot be merged until the hold is removed."

def draftMsg : String :=
  "This PR is a draft and cannot be approved. Please mark it as ready for review before approving."

def alreadyApprovedMsg (commenter : String) : String :=
  "@" ++ commenter ++ ", you have already approved this PR."

def approveReviewBody : String := "Approved via /approve command."

def reviewCreatedLog (n : Nat) : String :=
  "Approval review created for PR #" ++ toString n ++ " via /approve command."

def createReviewFailMsg (e : String) : String :=
  "❌ Failed to create an approval review: " ++ e

def mergedMsg (n : Nat) : String :=
  "✅ PR #" ++ toString n ++ " has met the required approvals and has been merged automatically."

def mergeFailMsg (e : String) : String :=
  "❌ Failed to merge the pull request: " ++ e

def belowThresholdMsg (k : Nat) : String :=
  "This PR requires at least " ++ toString MIN_REQUIRED_APPROVALS ++
    " approvals before it can be merged. Current approvals: " ++ toString k ++ "."

def holdPlacedLog (n : Nat) : String :=
  "PR #" ++ toString n ++ " has been placed on hold."

def unheldLog (n : Nat) : String :=
  "PR #" ++ toString n ++ " has been unheld and is ready for approval."

def removeLabelFailLog (n : Nat) (e : String) : String :=
  "Failed to remove \x27hold\x27 label from PR #" ++ toString n ++ ": " ++ e

/-- `checkDuplicateCommand` (src/index.js lines 87-107): on a successful
comment-list fetch, `comments.some((comment, idx) => comment.user.login ===
commenter && comment.body === commentBody && idx !== comments.length - 1)`;
a fetch failure is caught, logged, and yields `false` (fail-open). -/
def checkDuplicateCommand (comments : Except String (List Comment))
    (commenter commentBody : String) : List Action × Bool :=
  match comments with
  | Except.ok cs =>
      ([], cs.enum.any fun p =>
        p.2.userLogin == commenter && p.2.body == commentBody && p.1 != cs.length - 1)
  | Except.error e => ([Action.logError (duplicateCheckFailLog e)], false)

/-- `checkMaintainerOrBot` (src/index.js lines 211-232): true for the bot
identity and the repository owner without any fetch; otherwise true iff the
user appears in the direct-collaborator list; a fetch failure is caught,
logged, and yields `false` (fail-closed). -/
def checkMaintainerOrBot (collaborators : Except String (List Collaborator))
    (ownerusername username : String) : List Action × Bool :=
  if username == botUsername || username == ownerusername then
    ([], true)
  else
    match collaborators with
    | Except.ok cols => ([], cols.any fun collaborator => collaborator.login == username)
    | Except.error e => ([Action.logError (maintainerCheckFailLog e)], false)

/-- The approval count computed after a successful review creation
(src/index.js lines 177-180): the number of `APPROVED` reviews in the
already-fetched snapshot, plus one for the review just created. -/
def approvalCountOf (reviews : List Review) : Nat :=
  (reviews.filter fun review => review.state == "APPROVED").length + 1

/-- `approvePR` (src/index.js lines 115-204). The two initial fetches are not
wrapped in try/catch, so their failures propagate. Precondition checks (hold
label, draft, prior approval by the commenter) each post a comment and
return. Review creation is wrapped: on failure a comment is posted and the
function returns. On success the approval count is compared with
`MIN_REQUIRED_APPROVALS`; the merge call is wrapped, with a confirmation or
failure comment. A `createComment` failure propagates except inside the merge
try block, where the catch posts the merge-failure comment (which then fails
again and propagates). -/
def approvePR (p : Platform) (prNumber : Nat) (commenter : String) :
    List Action × Except String Unit :=
  match p.pullRequest with
  | Except.error e => ([], Except.error e)
  | Except.ok pr =>
  match p.reviews with
  | Except.error e => ([], Except.error e)
  | Except.ok reviews =>
  if pr.labels.any fun label => label.name == "hold" then
    ([Action.createComment holdMsg], p.createCommentResult)
  else if pr.draft then
    ([Action.createComment draftMsg], p.createCommentResult)
  else if reviews.any fun review =>
      review.userLogin == commenter && review.state == "APPROVED" then
    ([Action.createComment (alreadyApprovedMsg commenter)], p.createCommentResult)
  else
    match p.createReviewResult with
    | Except.error e =>
        ([Action.createReview prNumber ("APPROVE") approveReviewBody,
          Action.createComment (createReviewFailMsg e)], p.createCommentResult)
    | Except.ok _ =>
        let acts := [Action.createReview prNumber ("APPROVE") approveReviewBody,
                     Action.logInfo (reviewCreatedLog prNumber)]
        if approvalCountOf reviews ≥ MIN_REQUIRED_APPROVALS then
          match p.mergeResult with
          | Except.ok _ =>
              match p.createCommentResult with
              | Except.ok _ =>
                  (acts ++ [Action.merge prNumber,
                    Action.createComment (mergedMsg prNumber)], Except.ok ())
              | Except.error e2 =>
                  (acts ++ [Action.merge prNumber,
                    Action.createComment (mergedMsg prNumber),
                    Action.createComment (mergeFailMsg e2)], Except.error e2)
          | Except.error e =>
              (acts ++ [Action.merge prNumber,
                Action.createComment (mergeFailMsg e)], p.createCommentResult)
        else
          (acts ++ [Action.createComment (belowThresholdMsg (approvalCountOf reviews))],
           p.createCommentResult)

/-- `holdPR` (src/index.js lines 239-247): adds the `hold` label and logs; the
`addLabels` call is not wrapped, so its failure propagates. -/
def holdPR (p : Platform) (prNumber : Nat) : List Action × Except String Unit :=
  match p.addLabelsResult with
  | Except.ok _ =>
      ([Action.addLabels prNumber [("hold")], Action.logInfo (holdPlacedLog prNumber)],
       Except.ok ())
  | Except.error e =>
      ([Action.addLabels prNumber [("hold")]], Except.error e)

/-- `unholdPR` (src/index.js lines 254-266): removes the `hold` label inside
try/catch; a removal failure is logged only and never propagates. -/
def unholdPR (p : Platform) (prNumber : Nat) : List Action × Except String Unit :=
  match p.removeLabelResult with
  | Except.ok _ =>
      ([Action.removeLabel prNumber ("hold"), Action.logInfo (unheldLog prNumber)],
       Except.ok ())
  | Except.error e =>
      ([Action.removeLabel prNumber ("hold"), Action.logError (removeLabelFailLog prNumber e)],
       Except.ok ())

/-- `handlePRCommands` (src/index.js lines 28-78). Line 33 reads
`context.payload.comment.user.login` unconditionally, so a payload without a
comment object throws a TypeError before the empty-body/no-number filter on
line 35 can run. The three command ifs on lines 67-77 are written here as an
if/else chain, which is extensionally the same as the source's three
sequential ifs because the guards are mutually exclusive exact string
matches. -/
def handlePRCommands (p : Platform) (payload : Payload) :
    List Action × Except String Unit :=
  match payload.comment with
  | none => ([], Except.error commentUserTypeError)
  | some c =>
    let commentBody := c.body
    let commenter := c.userLogin
    if commentBody == "" || payload.issueNumber == none || payload.issueNumber == some 0 then
      ([], Except.ok ())
    else
      match payload.issueNumber with
      | none => ([], Except.ok ())
      | some prNumber =>
        if commenter == botUsername then
          ([Action.logInfo ignoreBotLog], Except.ok ())
        else
          let auth := checkMaintainerOrBot p.collaborators payload.repoOwner commenter
          if !auth.2 then
            (auth.1 ++ [Action.createComment (permissionDeniedMsg commenter)],
             p.createCommentResult)
          else
            let dup := checkDuplicateCommand p.comments commenter commentBody
            if dup.2 then
              (auth.1 ++ dup.1 ++ [Action.createComment (duplicateCommandMsg commenter)],
               p.createCommentResult)
            else
              let rest :=
                if commentBody == "/approve" then approvePR p prNumber commenter
                else if commentBody == "/hold" then holdPR p prNumber
                else if commentBody == "/unhold" then unholdPR p prNumber
                else ([], Except.ok ())
              (auth.1 ++ dup.1 ++ rest.1, rest.2)

/-- `true` exactly for the actions that mutate the platform (comment creation,
review creation, merge, label changes); log lines are not mutations. -/
def Action.isMutation : Action → Bool
  | Action.createComment _ => true
  | Action.createReview _ _ _ => true
  | Action.merge _ => true
  | Action.addLabels _ _ => true
  | Action.removeLabel _ _ => true
  | Action.logInfo _ => false
  | Action.logError _ => false

/-- `true` exactly for the actions only a command handler (`approvePR`,
`holdPR`, `unholdPR`) can perform: review creation, merge, label changes. -/
def Action.isHandlerMutation : Action → Bool
  | Action.createReview _ _ _ => true
  | Action.merge _ => true
  | Action.addLabels _ _ => true
  | Action.removeLabel _ _ => true
  | _ => false

/-- Modelled from the spec sentence of C4 (for comparison only): the number of
distinct actors having an `APPROVED` review in a review list. -/
def distinctApprovedActors (reviews : List Review) : Nat :=
  ((reviews.filter fun review => review.state == "APPROVED").map Review.userLogin).dedup.length

/-- A platform where every endpoint succeeds, the pull request is not a draft
and carries no label, and there are no reviews, no collaborators and a single
prior comment (the triggering one). -/
def okPlatform : Platform :=
  { pullRequest := Except.ok { draft := false, labels := [] }
    reviews := Except.ok []
    comments := Except.ok [{ userLogin := ("alice"), body := ("/approve") }]
    collaborators := Except.ok []
    createCommentResult := Except.ok ()
    createReviewResult := Except.ok ()
    mergeResult := Except.ok ()
    addLabelsResult := Except.ok ()
    removeLabelResult := Except.ok () }

/-- `okPlatform` with a failing `addLabels` endpoint. -/
def failAddLabelsPlatform : Platform :=
  { okPlatform with addLabelsResult := Except.error ("boom") }

/-- `okPlatform` with a failing `removeLabel` endpoint (no `hold` label to
remove). -/
def failRemoveLabelPlatform : Platform :=
  { okPlatform with removeLabelResult := Except.error ("Label does not exist") }

/-- `okPlatform` with a failing pull-request fetch. -/
def failPullRequestPlatform : Platform :=
  { okPlatform with pullRequest := Except.error ("boom") }

/-- `okPlatform` with a failing review-list fetch. -/
def failReviewsPlatform : Platform :=
  { okPlatform with reviews := Except.error ("boom") }

/-- C2: the code crashes where the spec says it filters. A payload without a
comment object — exactly what `pull_request.opened` and
`pull_request_review.submitted` deliver, both of which are routed to
`handlePRCommands` — throws a TypeError at
`context.payload.comment.user.login` (line 33) before the
empty-body/no-number filter on line 35 can run, instead of halting with no
side effects and no raised error. -/
theorem handlePRCommands_throws_on_missing_comment :
    handlePRCommands okPlatform
        { comment := none, issueNumber := some 7, repoOwner := ("alice") } =
      ([], Except.error commentUserTypeError) := rfl

/-- C9: `unholdPR` posts no comment and propagates no exception. When the
label removal fails (for instance because no `hold` label exists) the failure
is caught and only logged; when it succeeds only an info line is logged. -/
theorem unholdPR_never_comments_never_throws (p : Platform) (n : Nat) :
    (∀ e, p.removeLabelResult = Except.error e →
      unholdPR p n = ([Action.removeLabel n ("hold"),
        Action.logError (removeLabelFailLog n e)], Except.ok ())) ∧
    (p.removeLabelResult = Except.ok () →
      unholdPR p n = ([Action.removeLabel n ("hold"),
        Action.logInfo (unheldLog n)], Except.ok ())) := by
  constructor
  · intro e he
    simp [unholdPR, he]
  · intro h
    simp [unholdPR, h]

/-- Witness for C9: `/unhold` with no `hold` label present — the platform
rejects the removal, the failure is logged only and `unholdPR` returns
normally. -/
theorem unholdPR_never_comments_never_throws_witness :
    unholdPR failRemoveLabelPlatform 4 = ([Action.removeLabel 4 ("hold"),
      Action.logError (removeLabelFailLog 4 ("Label does not exist"))], Except.ok ()) :=
  (unholdPR_never_comments_never_throws failRemoveLabelPlatform 4).1
    ("Label does not exist") rfl

/-- Counterexample for C5: the hold handler is not wrapped in try/catch — when
the `addLabels` call fails, `holdPR` propagates the exception to its caller,
contradicting the claim that the hold handler never propagates. -/
theorem holdPR_propagates_addLabels_error :
    (holdPR failAddLabelsPlatform 5).2 = Except.error ("boom") := rfl

/-- C5 amended: `unholdPR` swallows its platform failure, but three platform
calls are not wrapped and do propagate: the hold handler's `addLabels` call,
and `approvePR`'s pull-request fetch and review-list fetch. -/
theorem error_wrapping_asymmetric (p : Platform) (n : Nat) (c e : String)
    (pr : PullRequest) :
    ((unholdPR p n).2 = Except.ok ()) ∧
    (p.addLabelsResult = Except.error e → (holdPR p n).2 = Except.error e) ∧
    (p.pullRequest = Except.error e → (approvePR p n c).2 = Except.error e) ∧
    (p.pullRequest = Except.ok pr → p.reviews = Except.error e →
      (approvePR p n c).2 = Except.error e) := by
  refine ⟨?_, ?_, ?_, ?_⟩
  · cases h : p.removeLabelResult <;> simp [unholdPR, h]
  · intro h
    simp [holdPR, h]
  · intro h
    simp [approvePR, h]
  · intro h1 h2
    simp [approvePR, h1, h2]

/-- Witness for C5 amended: concrete platforms exhibiting the swallowed
`removeLabel` failure and the three propagated failures. -/
theorem error_wrapping_asymmetric_witness :
    (unholdPR okPlatform 5).2 = Except.ok () ∧
    (holdPR failAddLabelsPlatform 5).2 = Except.error ("boom") ∧
    (approvePR failPullRequestPlatform 5 ("bob")).2 = Except.error ("boom") ∧
    (approvePR failReviewsPlatform 5 ("bob")).2 = Except.error ("boom") :=
  ⟨(error_wrapping_asymmetric okPlatform 5 ("bob") ("boom")
      { draft := false, labels := [] }).1,
   (error_wrapping_asymmetric failAddLabelsPlatform 5 ("bob") ("boom")
      { draft := false, labels := [] }).2.1 rfl,
   (error_wrapping_asymmetric failPullRequestPlatform 5 ("bob") ("boom")
      { draft := false, labels := [] }).2.2.1 rfl,
   (error_wrapping_asymmetric failReviewsPlatform 5 ("bob") ("boom")
      { draft := false, labels := [] }).2.2.2 rfl rfl⟩

/-- Counterexample for C4: the code counts `APPROVED` reviews with
multiplicity, not distinct approving actors — two `APPROVED` reviews by the
same actor give an approval count of 3, not 2. -/
theorem approvalCount_not_distinct_actors :
    ¬ (approvalCountOf [{ userLogin := ("alice"), state := ("APPROVED") },
          { userLogin := ("alice"), state := ("APPROVED") }] =
        distinctApprovedActors [{ userLogin := ("alice"), state := ("APPROVED") },
          { userLogin := ("alice"), state := ("APPROVED") }] + 1) := by
  decide

/-- C4 amended: the approval count used for the merge decision equals the
number of `APPROVED` reviews in the pre-fetch snapshot (with multiplicity)
plus one; when no actor has more than one `APPROVED` review in the snapshot
this coincides with the count of distinct approving actors plus one. -/
theorem approvalCount_eq_distinct_of_nodup (reviews : List Review)
    (h : ((reviews.filter fun review => review.state == "APPROVED").map
      Review.userLogin).Nodup) :
    approvalCountOf reviews = distinctApprovedActors reviews + 1 := by
  unfold approvalCountOf distinctApprovedActors
  rw [List.dedup_eq_self.mpr h, List.length_map]

/-- Witness for C4 amended: two different approving actors — the code's count
and the distinct-actor count agree. -/
theorem approvalCount_eq_distinct_of_nodup_witness :
    approvalCountOf [{ userLogin := ("alice"), state := ("APPROVED") },
      { userLogin := ("bob"), state := ("APPROVED") }] =
    distinctApprovedActors [{ userLogin := ("alice"), state := ("APPROVED") },
      { userLogin := ("bob"), state := ("APPROVED") }] + 1 :=
  approvalCount_eq_distinct_of_nodup _ (by decide)

theorem string_ne_of_head_ne (s t : String) (h : s.data.head? ≠ t.data.head?) :
    s ≠ t :=
  fun e => h (by rw [e])

theorem belowThresholdMsg_head (k : Nat) :
    (belowThresholdMsg k).data.head? = some ('T') := rfl

theorem mergedMsg_head (n : Nat) : (mergedMsg n).data.head? = some ('✅') := rfl

theorem mergeFailMsg_head (e : String) :
    (mergeFailMsg e).data.head? = some ('❌') := rfl

theorem belowThresholdMsg_ne_mergedMsg (k n : Nat) :
    belowThresholdMsg k ≠ mergedMsg n :=
  string_ne_of_head_ne _ _ (by rw [belowThresholdMsg_head, mergedMsg_head]; decide)

theorem belowThresholdMsg_ne_mergeFailMsg (k : Nat) (e : String) :
    belowThresholdMsg k ≠ mergeFailMsg e :=
  string_ne_of_head_ne _ _ (by rw [belowThresholdMsg_head, mergeFailMsg_head]; decide)

/-- C10: with the compiled-in `MIN_REQUIRED_APPROVALS = 1`, the recomputed
approval count (snapshot `APPROVED` count plus one) is always at least the
threshold; whenever the review creation succeeds a merge is attempted, and the
below-threshold status comment can never appear in the trace. -/
theorem merge_always_attempted (p : Platform) (n : Nat) (c : String)
    (pr : PullRequest) (reviews : List Review)
    (hpr : p.pullRequest = Except.ok pr)
    (hrev : p.reviews = Except.ok reviews)
    (hhold : (pr.labels.any fun label => label.name == "hold") = false)
    (hdraft : pr.draft = false)
    (happr : (reviews.any fun review =>
      review.userLogin == c && review.state == "APPROVED") = false)
    (hcr : p.createReviewResult = Except.ok ()) :
    MIN_REQUIRED_APPROVALS ≤ approvalCountOf reviews ∧
    Action.merge n ∈ (approvePR p n c).1 ∧
    ∀ k, Action.createComment (belowThresholdMsg k) ∉ (approvePR p n c).1 := by
  have hcount : MIN_REQUIRED_APPROVALS ≤ approvalCountOf reviews := by
    unfold MIN_REQUIRED_APPROVALS approvalCountOf
    exact Nat.le_add_left 1 _
  refine ⟨hcount, ?_, ?_⟩
  · cases hm : p.mergeResult with
    | ok u =>
        cases hcc : p.createCommentResult with
        | ok v =>
            simp [approvePR, hpr, hrev, hhold, hdraft, happr, hcr, hm, hcc,
              ge_iff_le, hcount]
        | error e2 =>
            simp [approvePR, hpr, hrev, hhold, hdraft, happr, hcr, hm, hcc,
              ge_iff_le, hcount]
    | error e =>
        simp [approvePR, hpr, hrev, hhold, hdraft, happr, hcr, hm,
          ge_iff_le, hcount]
  · intro k
    cases hm : p.mergeResult with
    | ok u =>
        cases hcc : p.createCommentResult with
        | ok v =>
            simp [approvePR, hpr, hrev, hhold, hdraft, happr, hcr, hm, hcc,
              ge_iff_le, hcount, belowThresholdMsg_ne_mergedMsg]
        | error e2 =>
            simp [approvePR, hpr, hrev, hhold, hdraft, happr, hcr, hm, hcc,
              ge_iff_le, hcount, belowThresholdMsg_ne_mergedMsg,
              belowThresholdMsg_ne_mergeFailMsg]
    | error e =>
        simp [approvePR, hpr, hrev, hhold, hdraft, happr, hcr, hm,
          ge_iff_le, hcount, belowThresholdMsg_ne_mergeFailMsg]

/-- Witness for C10: on `okPlatform` (no prior reviews) the count is 1 ≥ 1,
the merge action is in the trace, and no below-threshold comment is. -/
theorem merge_always_attempted_witness :
    MIN_REQUIRED_APPROVALS ≤ approvalCountOf [] ∧
    Action.merge 7 ∈ (approvePR okPlatform 7 ("alice")).1 ∧
    ∀ k, Action.createComment (belowThresholdMsg k) ∉ (approvePR okPlatform 7 ("alice")).1 :=
  merge_always_attempted okPlatform 7 ("alice") { draft := false, labels := [] } []
    rfl rfl rfl rfl rfl rfl

/-- The pull request used in the held-PR scenarios: not a draft, carrying the
`hold` label. -/
def heldPR : PullRequest := { draft := false, labels := [{ name := ("hold") }] }

/-- `okPlatform` with a held pull request. -/
def heldPlatform : Platform := { okPlatform with pullRequest := Except.ok heldPR }

/-- C6: `approvePR` checks hold label, then draft status, then an existing
`APPROVED` review by the actor, short-circuiting on the first failure with an
explanatory comment and no further action; a pull request carrying the `hold`
label never gets a review created (even when the review-list fetch fails). -/
theorem approvePR_checks_in_order (p : Platform) (n : Nat) (c : String)
    (pr : PullRequest) (reviews : List Review)
    (hpr : p.pullRequest = Except.ok pr) :
    ((pr.labels.any fun label => label.name == "hold") = true →
      ((approvePR p n c).1.all fun a => !a.isHandlerMutation) = true) ∧
    (p.reviews = Except.ok reviews →
      (((pr.labels.any fun label => label.name == "hold") = true →
        approvePR p n c = ([Action.createComment holdMsg], p.createCommentResult)) ∧
      ((pr.labels.any fun label => label.name == "hold") = false →
        pr.draft = true →
        approvePR p n c = ([Action.createComment draftMsg], p.createCommentResult)) ∧
      ((pr.labels.any fun label => label.name == "hold") = false →
        pr.draft = false →
        (reviews.any fun review =>
          review.userLogin == c && review.state == "APPROVED") = true →
        approvePR p n c =
          ([Action.createComment (alreadyApprovedMsg c)], p.createCommentResult)))) := by
  constructor
  · intro hh
    cases hrev : p.reviews with
    | ok rs => simp [approvePR, hpr, hrev, hh, Action.isHandlerMutation]
    | error e => simp [approvePR, hpr, hrev]
  · intro hrev
    refine ⟨?_, ?_, ?_⟩
    · intro hh
      simp [approvePR, hpr, hrev, hh]
    · intro hh hd
      simp [approvePR, hpr, hrev, hh, hd]
    · intro hh hd ha
      simp [approvePR, hpr, hrev, hh, hd, ha]

/-- Witness for C6: a held pull request — `/approve` only posts the hold
message; no review is created. -/
theorem approvePR_checks_in_order_witness :
    approvePR heldPlatform 3 ("bob") = ([Action.createComment holdMsg], Except.ok ()) :=
  ((approvePR_checks_in_order heldPlatform 3 ("bob") heldPR [] rfl).2 rfl).1 rfl

theorem checkMaintainerOrBot_actions_no_handler_mutation
    (cols : Except String (List Collaborator)) (o u : String) :
    ((checkMaintainerOrBot cols o u).1.all fun a => !a.isHandlerMutation) = true := by
  unfold checkMaintainerOrBot
  cases cols with
  | ok l => split <;> simp
  | error e => split <;> simp [Action.isHandlerMutation]

theorem checkDuplicateCommand_actions_no_handler_mutation
    (comments : Except String (List Comment)) (u b : String) :
    ((checkDuplicateCommand comments u b).1.all fun a => !a.isHandlerMutation) = true := by
  unfold checkDuplicateCommand
  cases comments with
  | ok cs => simp
  | error e => simp [Action.isHandlerMutation]

/-- Counterexample for C1: a comment body that is none of the three commands
still causes a platform mutation — an unauthorized actor writing `hello` gets
a permission-denial comment posted. -/
theorem nonCommand_comment_still_mutates :
    ((handlePRCommands okPlatform
        { comment := some { userLogin := ("mallory"), body := ("hello") },
          issueNumber := some 1, repoOwner := ("alice") }).1.any
      Action.isMutation) = true := rfl

/-- C1 amended: for a comment body not exactly `/approve`, `/hold` or
`/unhold`, no command handler executes — the trace contains no review
creation, merge or label mutation — but the authorization and duplicate
checks still run and may post a comment. -/
theorem nonCommand_no_handler_mutation (p : Platform) (payload : Payload)
    (c : Comment) (hc : payload.comment = some c)
    (h1 : c.body ≠ ("/approve")) (h2 : c.body ≠ ("/hold"))
    (h3 : c.body ≠ ("/unhold")) :
    ((handlePRCommands p payload).1.all fun a => !a.isHandlerMutation) = true := by
  have e1 : (c.body == ("/approve")) = false := beq_eq_false_iff_ne.mpr h1
  have e2 : (c.body == ("/hold")) = false := beq_eq_false_iff_ne.mpr h2
  have e3 : (c.body == ("/unhold")) = false := beq_eq_false_iff_ne.mpr h3
  simp only [handlePRCommands, hc, e1, e2, e3, Bool.false_eq_true, if_false]
  split
  · rfl
  · split
    · rfl
    · split
      · rfl
      · split
        · rw [List.all_append, checkMaintainerOrBot_actions_no_handler_mutation]
          rfl
        · split
          · rw [List.all_append, List.all_append,
              checkMaintainerOrBot_actions_no_handler_mutation,
              checkDuplicateCommand_actions_no_handler_mutation]
            rfl
          · rw [List.all_append, List.all_append,
              checkMaintainerOrBot_actions_no_handler_mutation,
              checkDuplicateCommand_actions_no_handler_mutation]
            rfl

/-- Witness for C1 amended: the `hello` comment from `mallory` produces no
handler mutation. -/
theorem nonCommand_no_handler_mutation_witness :
    ((handlePRCommands okPlatform
        { comment := some { userLogin := ("mallory"), body := ("hello") },
          issueNumber := some 1, repoOwner := ("alice") }).1.all
      fun a => !a.isHandlerMutation) = true :=
  nonCommand_no_handler_mutation okPlatform _ _ rfl (by decide) (by decide) (by decide)

/-- C3: with threshold 1, a non-draft non-held pull request with zero prior
`APPROVED` reviews, an authorized non-duplicate `/approve` produces exactly
one review creation, an approval count of 1, a merge call, and a confirmation
comment naming the pull-request number. -/
theorem approve_scenario_threshold_one (p : Platform) (payload : Payload)
    (c : String) (n : Nat) (pr : PullRequest) (reviews : List Review)
    (hc : payload.comment = some { userLogin := c, body := ("/approve") })
    (hn : payload.issueNumber = some n) (hn0 : n ≠ 0)
    (hbot : (c == botUsername) = false)
    (hauth : checkMaintainerOrBot p.collaborators payload.repoOwner c = ([], true))
    (hdup : checkDuplicateCommand p.comments c ("/approve") = ([], false))
    (hpr : p.pullRequest = Except.ok pr)
    (hhold : (pr.labels.any fun label => label.name == "hold") = false)
    (hdraft : pr.draft = false)
    (hrev : p.reviews = Except.ok reviews)
    (hnoapp : reviews.filter (fun review => review.state == "APPROVED") = [])
    (hcr : p.createReviewResult = Except.ok ())
    (hm : p.mergeResult = Except.ok ())
    (hcc : p.createCommentResult = Except.ok ()) :
    handlePRCommands p payload =
      ([Action.createReview n ("APPROVE") approveReviewBody,
        Action.logInfo (reviewCreatedLog n),
        Action.merge n,
        Action.createComment (mergedMsg n)], Except.ok ()) ∧
    approvalCountOf reviews = 1 := by
  have hcount : approvalCountOf reviews = 1 := by
    unfold approvalCountOf
    rw [hnoapp]
    rfl
  have happr : (reviews.any fun review =>
      review.userLogin == c && review.state == "APPROVED") = false := by
    rw [List.any_eq_false]
    intro x hx h
    have hst := List.filter_eq_nil_iff.mp hnoapp x hx
    simp only [Bool.and_eq_true, beq_iff_eq] at h hst
    exact hst h.2
  refine ⟨?_, hcount⟩
  simp [handlePRCommands, hc, hn, hn0, hbot, hauth, hdup, approvePR, hpr, hrev,
    hhold, hdraft, happr, hcr, hm, hcc, hcount, ge_iff_le, MIN_REQUIRED_APPROVALS]

/-- Witness for C3: the repository owner comments `/approve` on PR 7 of
`okPlatform`. -/
theorem approve_scenario_threshold_one_witness :
    handlePRCommands okPlatform
        { comment := some { userLogin := ("alice"), body := ("/approve") },
          issueNumber := some 7, repoOwner := ("alice") } =
      ([Action.createReview 7 ("APPROVE") approveReviewBody,
        Action.logInfo (reviewCreatedLog 7),
        Action.merge 7,
        Action.createComment (mergedMsg 7)], Except.ok ()) ∧
    approvalCountOf [] = 1 :=
  approve_scenario_threshold_one okPlatform _ ("alice") 7
    { draft := false, labels := [] } []
    rfl rfl (by decide) (by decide) rfl rfl rfl rfl rfl rfl rfl rfl rfl rfl

/-- `okPlatform` with a failing collaborator-list fetch. -/
def noCollabPlatform : Platform :=
  { okPlatform with collaborators := Except.error ("boom") }

/-- `okPlatform` with a failing comment-list fetch. -/
def noCommentsPlatform : Platform :=
  { okPlatform with comments := Except.error ("boom") }

/-- C7: the failure policies are asymmetric. A failed collaborator-list fetch
makes the authorization check fail closed: the error is logged, a denial
comment is posted and the pipeline halts. A failed comment-list fetch makes
the duplicate check fail open: the error is logged and the pipeline continues
to the dispatched command (here `/hold`, whose actions follow). -/
theorem failure_policy_asymmetry (p : Platform) (payload : Payload) (c : Comment)
    (n : Nat) (e : String)
    (hc : payload.comment = some c) (hn : payload.issueNumber = some n)
    (hn0 : n ≠ 0) (hbot : (c.userLogin == botUsername) = false) :
    ((c.userLogin == payload.repoOwner) = false → c.body ≠ ("") →
      p.collaborators = Except.error e →
      handlePRCommands p payload =
        ([Action.logError (maintainerCheckFailLog e),
          Action.createComment (permissionDeniedMsg c.userLogin)],
         p.createCommentResult)) ∧
    ((c.userLogin == payload.repoOwner) = true → c.body = ("/hold") →
      p.comments = Except.error e →
      handlePRCommands p payload =
        ([Action.logError (duplicateCheckFailLog e)] ++ (holdPR p n).1,
         (holdPR p n).2)) := by
  constructor
  · intro ho hb hcols
    have he : (c.body == ("")) = false := beq_eq_false_iff_ne.mpr hb
    simp [handlePRCommands, hc, hn, he, hn0, hbot, checkMaintainerOrBot, ho, hcols]
  · intro ho hb hcomm
    simp [handlePRCommands, hc, hn, hb, hn0, hbot, checkMaintainerOrBot, ho,
      checkDuplicateCommand, hcomm]

/-- Witness for C7: `bob` (not a collaborator, fetch fails) is denied;
`alice` (the owner) issues `/hold` while the comment-list fetch fails and the
hold still goes through. -/
theorem failure_policy_asymmetry_witness :
    handlePRCommands noCollabPlatform
        { comment := some { userLogin := ("bob"), body := ("/approve") },
          issueNumber := some 2, repoOwner := ("alice") } =
      ([Action.logError (maintainerCheckFailLog ("boom")),
        Action.createComment (permissionDeniedMsg ("bob"))], Except.ok ()) ∧
    handlePRCommands noCommentsPlatform
        { comment := some { userLogin := ("alice"), body := ("/hold") },
          issueNumber := some 2, repoOwner := ("alice") } =
      ([Action.logError (duplicateCheckFailLog ("boom")),
        Action.addLabels 2 [("hold")], Action.logInfo (holdPlacedLog 2)],
       Except.ok ()) :=
  ⟨(failure_policy_asymmetry noCollabPlatform
      { comment := some { userLogin := ("bob"), body := ("/approve") },
        issueNumber := some 2, repoOwner := ("alice") }
      { userLogin := ("bob"), body := ("/approve") } 2 ("boom")
      rfl rfl (by decide) (by decide)).1 (by decide) (by decide) rfl,
   (failure_policy_asymmetry noCommentsPlatform
      { comment := some { userLogin := ("alice"), body := ("/hold") },
        issueNumber := some 2, repoOwner := ("alice") }
      { userLogin := ("alice"), body := ("/hold") } 2 ("boom")
      rfl rfl (by decide) (by decide)).2 (by decide) rfl rfl⟩

/-- The comment thread used in the C8 witness: `alice` issued `/approve`
earlier in the thread and the triggering comment is the last element. -/
def dupThread : List Comment :=
  [{ userLogin := ("alice"), body := ("/approve") },
   { userLogin := ("bob"), body := ("looks good") },
   { userLogin := ("alice"), body := ("/approve") }]

/-- C8: for an ordered comment thread whose last element is the triggering
comment, the command is classified duplicate iff some comment at an index
strictly below the last index has the same author and exactly the same body
(raw text comparison, no normalization). -/
theorem duplicate_iff_earlier_identical (cs : List Comment)
    (commenter body : String)
    (hlast : cs.getLast? = some { userLogin := commenter, body := body }) :
    (checkDuplicateCommand (Except.ok cs) commenter body).2 = true ↔
      ∃ i : Fin cs.length, (i : Nat) < cs.length - 1 ∧
        (cs.get i).userLogin = commenter ∧ (cs.get i).body = body := by
  unfold checkDuplicateCommand
  simp only [List.any_eq_true, List.exists_mem_enum]
  constructor
  · rintro ⟨i, hi, hp⟩
    simp only [Bool.and_eq_true, beq_iff_eq, bne_iff_ne] at hp
    obtain ⟨⟨hu, hb⟩, hne⟩ := hp
    exact ⟨⟨i, hi⟩, Nat.lt_of_le_of_ne (Nat.le_sub_one_of_lt hi) hne, hu, hb⟩
  · rintro ⟨⟨i, hi⟩, hlt, hu, hb⟩
    refine ⟨i, hi, ?_⟩
    simp only [Bool.and_eq_true, beq_iff_eq, bne_iff_ne]
    exact ⟨⟨hu, hb⟩, Nat.ne_of_lt hlt⟩

/-- Witness for C8: a thread where `alice` repeats `/approve` — the filter
classifies it duplicate, and index 0 is the earlier identical comment. -/
theorem duplicate_iff_earlier_identical_witness :
    (checkDuplicateCommand (Except.ok dupThread) ("alice") ("/approve")).2 = true ↔
      ∃ i : Fin dupThread.length, (i : Nat) < dupThread.length - 1 ∧
        (dupThread.get i).userLogin = ("alice") ∧
        (dupThread.get i).body = ("/approve") :=
  duplicate_iff_earlier_identical dupThread ("alice") ("/approve") rfl

end KubefirstBot
